import Mathlib

/-!
A shallow embedding of `agatesql/table.py` (the schema bridge between agate
tabular datasets and SQL tables), with theorems checking the module's
specification against it.

Modelling conventions:
* The six agate column types become the inductive `TabularKind`; the concrete
  SQLAlchemy type classes the module imports become the inductive `SqlType`.
* The module-level dict `SQL_TYPE_MAP` is mutable Python state: its four
  dialect-dependent entries (`Boolean`, `DateTime`, `Number`, `TimeDelta`,
  initially `None`) are modelled as the state record `SqlTypeMapState`, which
  is threaded explicitly through `make_sql_table`; its two entries that no code
  ever reassigns (`Date ↦ DATE`, `Text ↦ VARCHAR`) are constants folded into
  `lookupTypeMap`.
* Numeric lengths and aggregates (`MaxLength`, `MaxPrecision` return
  `decimal.Decimal`) are modelled as rationals `ℚ`.
* Exceptions become `Except` results; the exception-flow of `from_sql`/`to_sql`
  (which steps run, which resources are released, where `try/finally` sits) is
  modelled by `from_sql_run`/`to_sql_run`, which take a failure-injection
  argument naming the step at which the database client raises.
-/

deriving instance DecidableEq for Except

namespace AgateSql

/-- The six agate column data types (`agate.Boolean`, …). -/
inductive TabularKind
  | boolean
  | number
  | date
  | datetime
  | timeDelta
  | text
deriving DecidableEq

/-- The concrete SQLAlchemy column types `agatesql/table.py` imports:
the generic types from `sqlalchemy.types` plus the three dialect-specific
imports (`mssql.BIT`, `oracle.INTERVAL`, `postgresql.INTERVAL`). -/
inductive SqlType
  | BOOLEAN
  | BIT
  | DATE
  | DATETIME
  | TIMESTAMP
  | DECIMAL
  | FLOAT
  | TEXT
  | VARCHAR
  | INTERVAL
  | POSTGRES_INTERVAL
  | ORACLE_INTERVAL
deriving DecidableEq

/-- The four entries of the module-level dict `SQL_TYPE_MAP` that
`make_sql_table` reassigns on every call (all `None` at module load); the
`Date` and `Text` entries are never reassigned and are constants in
`lookupTypeMap`. -/
structure SqlTypeMapState where
  boolean : Option SqlType
  datetime : Option SqlType
  number : Option SqlType
  timedelta : Option SqlType
deriving DecidableEq

/-- `SQL_TYPE_MAP` as initialised at module load (lines 20-27):
`Boolean`, `Number`, `DateTime`, `TimeDelta` all map to `None`. -/
def initSqlTypeMap : SqlTypeMapState :=
  ⟨none, none, none, none⟩

/-- Reading `SQL_TYPE_MAP[agate_kind]` in a given state.  `Date ↦ DATE` and
`Text ↦ VARCHAR` are the two entries no code ever reassigns. -/
def lookupTypeMap (st : SqlTypeMapState) : TabularKind → Option SqlType
  | .boolean => st.boolean
  | .number => st.number
  | .date => some SqlType.DATE
  | .datetime => st.datetime
  | .timeDelta => st.timedelta
  | .text => some SqlType.VARCHAR

/-- `DATETIME_MAP.get(dialect, TIMESTAMP)` (lines 29-31, 189). The module's
`dialect` argument defaults to `None`, which is not a key of any map. -/
def DATETIME_MAP_get (dialect : Option String) : SqlType :=
  if dialect = some "mssql" then SqlType.DATETIME else SqlType.TIMESTAMP

/-- `BOOLEAN_MAP.get(dialect, BOOLEAN)` (lines 33-35, 188). -/
def BOOLEAN_MAP_get (dialect : Option String) : SqlType :=
  if dialect = some "mssql" then SqlType.BIT else SqlType.BOOLEAN

/-- `NUMBER_MAP.get(dialect, DECIMAL)` (lines 37-40, 190). -/
def NUMBER_MAP_get (dialect : Option String) : SqlType :=
  if dialect = some "crate" ∨ dialect = some "sqlite" then SqlType.FLOAT
  else SqlType.DECIMAL

/-- `INTERVAL_MAP.get(dialect, Interval)` (lines 42-45, 191). -/
def INTERVAL_MAP_get (dialect : Option String) : SqlType :=
  if dialect = some "postgresql" then SqlType.POSTGRES_INTERVAL
  else if dialect = some "oracle" then SqlType.ORACLE_INTERVAL
  else SqlType.INTERVAL

/-- The four assignments `SQL_TYPE_MAP[...] = ..._MAP.get(dialect, ...)` at the
top of `make_sql_table` (lines 188-191).  They overwrite all four mutable
entries of the shared dict, reading none of its previous values. -/
def updateSqlTypeMap (dialect : Option String) : SqlTypeMapState :=
  ⟨some (BOOLEAN_MAP_get dialect), some (DATETIME_MAP_get dialect),
   some (NUMBER_MAP_get dialect), some (INTERVAL_MAP_get dialect)⟩

/-! ## Type inference (`from_sql`, lines 91-114) -/

/-- Python-level value types that `python_type` of the modelled native SQL
types can report, as inspected by the `from_sql` inference chain. -/
inductive PyType
  | int
  | float
  | decimalT
  | bool
  | str
  | date
  | datetime
  | timedelta
  | bytes
deriving DecidableEq

/-- Native SQLAlchemy column types a reflected table can report, covering the
generic types plus the two dialect interval types named in `INTERVAL_MAP` and
a binary type whose Python type matches no branch of the inference chain. -/
inductive NativeSqlType
  | INTEGER
  | FLOAT_T
  | NUMERIC
  | BOOLEAN_T
  | VARCHAR_T
  | TEXT_T
  | DATE_T
  | DATETIME_T
  | TIMESTAMP_T
  | INTERVAL_T
  | POSTGRES_INTERVAL_T
  | ORACLE_INTERVAL_T
  | LARGE_BINARY
deriving DecidableEq

/-- `sql_column.type.python_type` for each modelled native type.  `none`
models the attribute raising `NotImplementedError`, which the Oracle
`INTERVAL` type does — the reason `from_sql` special-cases the interval types
before ever reading `python_type`. -/
def pythonType : NativeSqlType → Option PyType
  | .INTEGER => some PyType.int
  | .FLOAT_T => some PyType.float
  | .NUMERIC => some PyType.decimalT
  | .BOOLEAN_T => some PyType.bool
  | .VARCHAR_T => some PyType.str
  | .TEXT_T => some PyType.str
  | .DATE_T => some PyType.date
  | .DATETIME_T => some PyType.datetime
  | .TIMESTAMP_T => some PyType.datetime
  | .INTERVAL_T => some PyType.timedelta
  | .POSTGRES_INTERVAL_T => some PyType.timedelta
  | .ORACLE_INTERVAL_T => none
  | .LARGE_BINARY => some PyType.bytes

/-- `type(sql_column.type) in INTERVAL_MAP.values()` (line 94):
`INTERVAL_MAP` holds exactly the PostgreSQL and Oracle interval classes. -/
def inIntervalMapValues (t : NativeSqlType) : Bool :=
  t = NativeSqlType.POSTGRES_INTERVAL_T ∨ t = NativeSqlType.ORACLE_INTERVAL_T

/-- Errors `from_sql` inference can raise for a column. -/
inductive InferError
  | unsupportedSqlType (t : NativeSqlType)
  | pythonTypeNotImplemented (t : NativeSqlType)
deriving DecidableEq

/-- The per-column inference chain of `from_sql` (lines 94-114): the interval
override, then dispatch on the column type's Python-level value type, else
`ValueError('Unsupported sqlalchemy column type: %s' % type(sql_column.type))`.
(The chain also sets `asdecimal = True` on float columns, a read-back detail
that does not affect the inferred kind and is not modelled.) -/
def infer_column_type (t : NativeSqlType) : Except InferError TabularKind :=
  if inIntervalMapValues t then Except.ok TabularKind.timeDelta
  else
    match pythonType t with
    | none => Except.error (InferError.pythonTypeNotImplemented t)
    | some py =>
      if py = PyType.int ∨ py = PyType.float ∨ py = PyType.decimalT then
        Except.ok TabularKind.number
      else if py = PyType.bool then Except.ok TabularKind.boolean
      else if py = PyType.str then Except.ok TabularKind.text
      else if py = PyType.date then Except.ok TabularKind.date
      else if py = PyType.datetime then Except.ok TabularKind.datetime
      else if py = PyType.timedelta then Except.ok TabularKind.timeDelta
      else Except.error (InferError.unsupportedSqlType t)

/-- Classifier for stating claims: the modelled native types that are interval
types (the generic `Interval` plus the two dialect-specific ones). -/
def isIntervalType (t : NativeSqlType) : Bool :=
  t = NativeSqlType.INTERVAL_T ∨ t = NativeSqlType.POSTGRES_INTERVAL_T ∨
    t = NativeSqlType.ORACLE_INTERVAL_T

/-- Spec-side predicate (from the spec's words, for the totality claim):
a native type "maps to one of the six Tabular Kinds" when the interval
override applies or its Python-level type is one the inference chain accepts. -/
def mapsToSomeKind (t : NativeSqlType) : Bool :=
  inIntervalMapValues t ||
    match pythonType t with
    | some p => p ∈ [PyType.int, PyType.float, PyType.decimalT, PyType.bool,
        PyType.str, PyType.date, PyType.datetime, PyType.timedelta]
    | none => false

/-! ## Schema synthesis (`make_sql_column`, `make_sql_table`, lines 150-238) -/

/-- An agate column as `make_sql_table` consumes it: its data type together
with the three aggregates the synthesizer queries the dataset for
(`MaxLength`, `MaxPrecision`, `HasNulls`). -/
structure AgateColumn where
  name : String
  kind : TabularKind
  maxLength : ℚ
  maxPrecision : ℚ
  hasNulls : Bool
deriving DecidableEq

/-- The `sql_type_kwargs` dict passed to the SQL type constructor. -/
structure TypeKwargs where
  length : Option ℚ
  precision : Option ℚ
  scale : Option ℚ
deriving DecidableEq

/-- The `sql_column_kwargs` dict passed to the `Column` constructor. -/
structure ColumnKwargs where
  nullable : Option Bool
deriving DecidableEq

def emptyTypeKwargs : TypeKwargs := ⟨none, none, none⟩

def emptyColumnKwargs : ColumnKwargs := ⟨none⟩

/-- A synthesized SQLAlchemy `Column`: name, concrete type, and the keyword
arguments that were applied to it (`none` = keyword not passed, so the
SQLAlchemy default applies — in particular a column with `nullable = none`
is nullable by SQLAlchemy's default). -/
structure SqlColumnDef where
  name : String
  colType : SqlType
  length : Option ℚ
  precision : Option ℚ
  scale : Option ℚ
  nullable : Option Bool
deriving DecidableEq

/-- `ValueError('Unsupported column type: %s' % column.data_type)`
(line 172), naming the offending agate data type. -/
inductive SynthError
  | unsupportedColumnType (kind : TabularKind)
deriving DecidableEq

/-- A synthesized SQLAlchemy `Table` (lines 185-186, 232-238). -/
structure SqlTableDef where
  name : String
  dbSchema : Option String
  columns : List SqlColumnDef
  uniqueConstraint : List String
deriving DecidableEq

/-- `make_sql_column` (lines 150-177).  The loop over `SQL_TYPE_MAP.items()`
with an `isinstance` test and `break` selects the entry for the column's data
type, so it is the lookup `lookupTypeMap st column.kind`; the dict is the
shared mutable map, passed here as explicit state `st`.  A `None` entry (or a
kind with no entry) leaves `sql_column_type` as `None` and raises
`ValueError('Unsupported column type: ...')`. -/
def make_sql_column (st : SqlTypeMapState) (column_name : String)
    (kind : TabularKind) (sql_type_kwargs : TypeKwargs)
    (sql_column_kwargs : ColumnKwargs) (sql_column_type : Option SqlType) :
    Except SynthError SqlColumnDef :=
  let resolved : Option SqlType :=
    match sql_column_type with
    | some t => some t
    | none => lookupTypeMap st kind
  match resolved with
  | none => Except.error (SynthError.unsupportedColumnType kind)
  | some t =>
      Except.ok ⟨column_name, t, sql_type_kwargs.length, sql_type_kwargs.precision,
        sql_type_kwargs.scale, sql_column_kwargs.nullable⟩

/-- The dialects of the numeric precision/scale branch (line 215). -/
def precisionDialects : List (Option String) :=
  [some "ingres", some "mssql", some "mysql", some "oracle"]

/-- The body of `make_sql_table`'s per-column loop (lines 193-233), run
against the already-updated type map `st`: the constraint rules (text length
on `ingres`/`mysql`, numeric precision/scale, nullability except for
`DateTime`) followed by the `make_sql_column` call. -/
def make_sql_table_column (st : SqlTypeMapState) (dialect : Option String)
    (constraints : Bool) (min_col_len col_len_multiplier : ℚ)
    (column : AgateColumn) : Except SynthError SqlColumnDef :=
  if constraints then
    let length := column.maxLength * col_len_multiplier
    let textLimited :=
      column.kind = TabularKind.text ∧
        (dialect = some "ingres" ∨ dialect = some "mysql")
    let overLimit :=
      (dialect = some "mysql" ∧ length > 21844) ∨
        (dialect = some "ingres" ∧ length > 10666)
    let sql_column_type : Option SqlType :=
      if textLimited ∧ overLimit then some SqlType.TEXT else none
    let lengthKw : Option ℚ :=
      if textLimited ∧ ¬ overLimit then
        some (if length ≥ min_col_len then length else min_col_len)
      else none
    let numberBranch := column.kind = TabularKind.number ∧ dialect ∈ precisionDialects
    let precisionKw : Option ℚ := if numberBranch then some 38 else none
    let scaleKw : Option ℚ := if numberBranch then some column.maxPrecision else none
    let nullableKw : Option Bool :=
      if column.kind ≠ TabularKind.datetime then some column.hasNulls else none
    make_sql_column st column.name column.kind ⟨lengthKw, precisionKw, scaleKw⟩
      ⟨nullableKw⟩ sql_column_type
  else
    make_sql_column st column.name column.kind emptyTypeKwargs emptyColumnKwargs none

/-- `make_sql_table` (lines 180-238).  `st` is the state of the shared
module-level `SQL_TYPE_MAP` when the call starts; the first component of the
result is its state when the call returns (the four assignments at lines
188-191 overwrite all four mutable entries, ignoring their previous values).
The column loop raises at the first unsupported column, modelled by `mapM`. -/
def make_sql_table (st : SqlTypeMapState) (tableColumns : List AgateColumn)
    (table_name : String) (dialect : Option String) (db_schema : Option String)
    (constraints : Bool) (unique_constraint : List String)
    (min_col_len col_len_multiplier : ℚ) :
    SqlTypeMapState × Except SynthError SqlTableDef :=
  let st1 := updateSqlTypeMap dialect
  let cols := tableColumns.mapM
    (make_sql_table_column st1 dialect constraints min_col_len col_len_multiplier)
  (st1, cols.map (fun cs => ⟨table_name, db_schema, cs, unique_constraint⟩))

/-! ## Batched insertion (`to_sql`, lines 294-303) -/

/-- The row batches `to_sql` passes to successive `connection.execute(insert,
...)` calls (lines 294-303).  With `chunk_size=None` all rows go in one
execution; otherwise the loop runs `range((number_of_rows - 1) // chunk_size
+ 1)` times (Python floor division on integers, hence `Int.fdiv`) and slices
`self.rows[index * chunk_size : end_index]` with `end_index` clamped to the
row count.  (`chunk_size = 0` raises `ZeroDivisionError` in the source and is
outside this model.) -/
def insert_batches {α : Type} (rows : List α) (chunk_size : Option Nat) :
    List (List α) :=
  match chunk_size with
  | none => [rows]
  | some k =>
    let number_of_rows := rows.length
    (List.range (((number_of_rows : Int) - 1).fdiv (k : Int) + 1).toNat).map
      fun index =>
        let end_index := min ((index + 1) * k) number_of_rows
        (rows.drop (index * k)).take (end_index - index * k)

/-! ## Connection resolution (`get_engine_and_connection`, lines 48-68) -/

/-- The three shapes of `connection_or_string`: `None` (the default), an
existing `sqlalchemy.engine.Connection`, or a connection string. -/
inductive ConnInput
  | absent
  | conn
  | connString (s : String)
deriving DecidableEq

/-- `c.isAlphanum || c ∈ "+-."`: the characters `urlsplit` allows after the
first letter of a URL scheme. -/
def isSchemeChar (c : Char) : Bool :=
  c.isAlphanum || c = '+' || c = '-' || c = '.'

/-- `urlsplit(s).scheme`: the text before the first `:`, lowercased, when it
is a well-formed scheme (nonempty, starts with a letter, scheme characters
only); otherwise the empty string. -/
def urlsplit_scheme (s : String) : String :=
  match s.splitOn ":" with
  | [] => ""
  | [_] => ""
  | head :: _ :: _ =>
    if head ≠ "" ∧ head.data.head?.all Char.isAlpha ∧ head.data.all isSchemeChar
    then head.toLower else ""

/-- What `get_engine_and_connection` did and returned.
`ownedEngine`: the engine component of the returned pair is not `None`.
`openedEngine`: the call itself ran `create_engine` and `engine.connect()`.
`usesCallerConn`: the returned connection is the caller's own object.
`fastExecutemany`: `create_engine` was given `fast_executemany=True`. -/
structure ResolveResult where
  ownedEngine : Bool
  openedEngine : Bool
  usesCallerConn : Bool
  fastExecutemany : Bool
deriving DecidableEq

/-- `get_engine_and_connection` (lines 48-68).  On `None` it creates an
in-memory SQLite engine and connects, but `return None, connection` discards
the engine handle, so the returned pair carries no owned engine.  On an
existing `Connection` it passes the connection through with no engine.  On a
connection string it creates an engine (with `fast_executemany=True` when the
URL scheme is `mssql+pyodbc`), connects, and returns both. -/
def get_engine_and_connection (connection_or_string : ConnInput) : ResolveResult :=
  match connection_or_string with
  | ConnInput.absent =>
      ⟨false, true, false, false⟩
  | ConnInput.conn =>
      ⟨false, false, true, false⟩
  | ConnInput.connString s =>
      ⟨true, true, false, urlsplit_scheme s == "mssql+pyodbc"⟩

/-! ## Resource flow of `from_sql` (lines 71-125) and `to_sql` (lines 241-310)

Each operation is a straight-line sequence of calls into the database client,
any of which can raise; the `failAt` argument injects an exception at the
named step.  The outcome records whether the call returned normally and
whether the cleanup `if engine is not None: connection.close();
engine.dispose()` ran — it sits in a `finally` whose `try` covers only the
final expression of the function, so it runs only once control reaches that
`try` block. -/

/-- The steps of `from_sql` at which the database client can raise:
table reflection (line 86), the full-table read (line 118), and the dataset
construction inside the `try` (line 121). -/
inductive FromSqlStep
  | introspect
  | execute
  | buildResult
deriving DecidableEq

/-- The steps of `to_sql` at which the database client can raise: the
`drop` (line 286), the `create` (line 288), and the insert executions
(lines 295-303). -/
inductive ToSqlStep
  | dropStep
  | createStep
  | insertStep
deriving DecidableEq

/-- What a call left behind: whether it returned normally, whether the
`connection` variable was closed, and whether an engine was disposed. -/
structure OpOutcome where
  ok : Bool
  connectionClosed : Bool
  engineDisposed : Bool
deriving DecidableEq

/-- `from_sql` (lines 71-125) as a resource trace.  Reflection, the inference
loop and the read run before the `try`; only the dataset construction
(line 121) is inside it, and the `finally` closes the connection and disposes
the engine only when the local `engine` is not `None`. -/
def from_sql_run (input : ConnInput) (failAt : Option FromSqlStep)
    (cols : List NativeSqlType) : OpOutcome :=
  let r := get_engine_and_connection input
  if failAt = some FromSqlStep.introspect then ⟨false, false, false⟩
  else
    match cols.mapM infer_column_type with
    | Except.error _ => ⟨false, false, false⟩
    | Except.ok _ =>
      if failAt = some FromSqlStep.execute then ⟨false, false, false⟩
      else
        let cleanup := r.ownedEngine
        if failAt = some FromSqlStep.buildResult then ⟨false, cleanup, cleanup⟩
        else ⟨true, cleanup, cleanup⟩

/-- `to_sql` (lines 241-310) as a resource trace.  `dialect` stands for
`connection.engine.dialect.name`.  Synthesis, the optional drop/create and the
inserts all run before the `try`; the `try` covers only `return sql_table`,
which cannot raise, so the `finally` cleanup runs only on the success path
(and only when the local `engine` is not `None`).  The first component is the
shared `SQL_TYPE_MAP` state after the call. -/
def to_sql_run (input : ConnInput) (dialect : Option String)
    (failAt : Option ToSqlStep) (st : SqlTypeMapState)
    (tableColumns : List AgateColumn) (table_name : String)
    (overwrite create insertRows : Bool) (db_schema : Option String)
    (constraints : Bool) (unique_constraint : List String)
    (min_col_len col_len_multiplier : ℚ) : SqlTypeMapState × OpOutcome :=
  let r := get_engine_and_connection input
  let synth := make_sql_table st tableColumns table_name dialect db_schema
    constraints unique_constraint min_col_len col_len_multiplier
  match synth.2 with
  | Except.error _ => (synth.1, ⟨false, false, false⟩)
  | Except.ok _ =>
    if create ∧ overwrite ∧ failAt = some ToSqlStep.dropStep then
      (synth.1, ⟨false, false, false⟩)
    else if create ∧ failAt = some ToSqlStep.createStep then
      (synth.1, ⟨false, false, false⟩)
    else if insertRows ∧ failAt = some ToSqlStep.insertStep then
      (synth.1, ⟨false, false, false⟩)
    else
      let cleanup := r.ownedEngine
      (synth.1, ⟨true, cleanup, cleanup⟩)

/-! ## Round-trip query execution (`sql_query`, lines 340-367) -/

/-- `agate.Table(list(rows), ...)` with `rows` still `None`: the `TypeError`
the final dataset construction raises when no statement was executed. -/
inductive QueryError
  | lastResultNone
deriving DecidableEq

/-- What a `sql_query` call did: whether the dataset was written into the
ephemeral database (`self.to_sql` runs before the query loop), which
statements the loop executed, and the final result. -/
structure SqlQueryOutcome (ρ : Type) where
  materialized : Bool
  executed : List String
  result : Except QueryError ρ

/-- Python `str.split` with a single-character separator, on the string's
character list: splits at every occurrence of the separator and keeps empty
pieces, so `";;".split(';') == ['', '', '']` and `''.split(';') == ['']`. -/
def pySplitChar (sep : Char) : List Char → List Char → List String
  | [], acc => [String.mk acc.reverse]
  | c :: rest, acc =>
    if c = sep then String.mk acc.reverse :: pySplitChar sep rest []
    else pySplitChar sep rest (c :: acc)

/-- `query.split(';')` (line 356). -/
def pySplit (sep : Char) (s : String) : List String :=
  pySplitChar sep s.data []

/-- `sql_query` (lines 340-367), abstracting statement execution as
`execStmt`.  The query text is split on `;`; `self.to_sql(connection,
table_name)` materializes the dataset before the loop; the loop executes each
non-empty piece in order, keeping only the last result in `rows` (initially
`None`); the final dataset construction fails when `rows` is still `None`.
The executed-statement list is instrumentation accumulated alongside `rows`. -/
def sql_query_run {ρ : Type} (execStmt : String → ρ) (query : String) :
    SqlQueryOutcome ρ :=
  let queries := pySplit ';' query
  let materialized := true
  let loopState := queries.foldl
    (fun acc q => if q ≠ "" then (acc.1 ++ [q], some (execStmt q)) else acc)
    (([] : List String), (none : Option ρ))
  match loopState.2 with
  | none => ⟨materialized, loopState.1, Except.error QueryError.lastResultNone⟩
  | some r => ⟨materialized, loopState.1, Except.ok r⟩

/-! ## Theorems -/

/-- Claim C1: the claim (and the spec's invariant) say schema synthesis
computes its dialect type map "as a local mapping, with no state shared or
mutated across calls".  The code does not have this property — the spec
itself flags the source's shared mutable override table as an accidental
defect.  This theorem evaluates the code at the failing input: a synthesis
call for dialect `mssql` starting from the freshly imported module state
leaves the shared `SQL_TYPE_MAP` in a different state than it found it. -/
theorem sql_type_map_is_mutated_counterexample :
    (make_sql_table initSqlTypeMap [] "t" (some "mssql") none true [] 1 1).1 ≠
      initSqlTypeMap := by
  decide

/-- The part of the purity invariant the source does satisfy: although
`make_sql_table` mutates the shared type map, it overwrites all four
dialect-dependent entries before any lookup and the two remaining entries are
never reassigned, so both the synthesized table and the post-call map state
are the same for a given argument list no matter what state previous calls
left — the type selected for a (dialect, kind) pair is independent of call
order, and the post-state is a pure function of the dialect. -/
theorem make_sql_table_independent_of_prior_state (st st' : SqlTypeMapState)
    (tableColumns : List AgateColumn) (table_name : String)
    (dialect db_schema : Option String) (constraints : Bool)
    (unique_constraint : List String) (min_col_len col_len_multiplier : ℚ) :
    make_sql_table st tableColumns table_name dialect db_schema constraints
        unique_constraint min_col_len col_len_multiplier =
      make_sql_table st' tableColumns table_name dialect db_schema constraints
        unique_constraint min_col_len col_len_multiplier ∧
    (make_sql_table st tableColumns table_name dialect db_schema constraints
        unique_constraint min_col_len col_len_multiplier).1 =
      updateSqlTypeMap dialect := by
  exact ⟨rfl, rfl⟩

/-- Claim C3, counterexample.  The claim says the resolver called with no
input returns the engine it opened as an owned engine.  In the source the
`connection_or_string is None` branch does `create_engine`/`connect` but then
`return None, connection`: an engine is opened, yet the engine component of
the returned pair is `None`. -/
theorem resolver_absent_counterexample :
    (get_engine_and_connection ConnInput.absent).openedEngine = true ∧
      (get_engine_and_connection ConnInput.absent).ownedEngine = false := by
  decide

/-- Claim C3, amended: when called with no input the resolver opens a private
ephemeral in-process database and returns the live connection, but discards
the engine handle — the engine component of the returned pair is `None`, so
the caller has no owned engine to close and dispose. -/
theorem resolver_absent_discards_engine :
    get_engine_and_connection ConnInput.absent =
      ⟨false, true, false, false⟩ := by
  rfl

/-- Claim C7: in `from_sql` inference, every column whose native SQL type is
an interval type (the generic `Interval` or either dialect-specific interval
class) is mapped to Tabular Kind TimeDelta — for the two classes in
`INTERVAL_MAP` by the explicit override (regardless of what, if anything,
their `python_type` reports), and for the generic type via its
`timedelta` Python type. -/
theorem interval_types_infer_timedelta (t : NativeSqlType)
    (h : isIntervalType t = true) :
    infer_column_type t = Except.ok TabularKind.timeDelta := by
  revert h
  cases t <;> decide

/-- Witness for `interval_types_infer_timedelta` at the Oracle interval type
(whose `python_type` raises, so only the override can classify it). -/
theorem interval_types_infer_timedelta_witness :
    isIntervalType NativeSqlType.ORACLE_INTERVAL_T = true ∧
      infer_column_type NativeSqlType.ORACLE_INTERVAL_T =
        Except.ok TabularKind.timeDelta :=
  ⟨by decide, interval_types_infer_timedelta NativeSqlType.ORACLE_INTERVAL_T (by decide)⟩

/-- Claim C8: type mapping is total-or-error in both directions.  Inference
returns the `ValueError` naming the offending native type exactly when that
native type maps to none of the six Tabular Kinds (and otherwise returns a
kind); `make_sql_column` without an explicit column type raises the
"unsupported column type" error naming the column's data type exactly when
the shared type map has no entry (`None`) for that kind, and otherwise
succeeds. -/
theorem type_mapping_total_or_error :
    (∀ t : NativeSqlType,
      (infer_column_type t = Except.error (InferError.unsupportedSqlType t) ↔
        mapsToSomeKind t = false) ∧
      (mapsToSomeKind t = true → ∃ k, infer_column_type t = Except.ok k)) ∧
    (∀ (st : SqlTypeMapState) (column_name : String) (kind : TabularKind)
        (tk : TypeKwargs) (ck : ColumnKwargs),
      (make_sql_column st column_name kind tk ck none =
          Except.error (SynthError.unsupportedColumnType kind) ↔
        lookupTypeMap st kind = none) ∧
      (lookupTypeMap st kind ≠ none →
        ∃ c, make_sql_column st column_name kind tk ck none = Except.ok c)) := by
  constructor
  · intro t
    cases t <;> simp [infer_column_type, mapsToSomeKind, inIntervalMapValues, pythonType]
  · intro st column_name kind tk ck
    cases h : lookupTypeMap st kind <;>
      simp [make_sql_column, h]

/-- Python's `(-1) // k` for positive `k` is `-1`. -/
theorem neg_one_fdiv_pos (k' : Nat) :
    (((0 : Nat) : Int) - 1).fdiv (((k' + 1 : Nat) : Int)) = -1 := by
  show (Int.negSucc 0).fdiv (Int.ofNat (k' + 1)) = Int.negSucc 0
  simp [Int.fdiv]

/-- The loop bound `(number_of_rows - 1) // chunk_size + 1` of `to_sql` is the
ceiling `⌈n / k⌉` for every positive chunk size, including `n = 0`. -/
theorem insert_batches_count (n k : Nat) (hk : 1 ≤ k) :
    (((n : Int) - 1).fdiv (k : Int) + 1).toNat = (n + k - 1) / k := by
  cases n with
  | zero =>
    obtain ⟨k', rfl⟩ : ∃ m, k = m + 1 := ⟨k - 1, by omega⟩
    rw [neg_one_fdiv_pos k']
    simp [Nat.div_eq_of_lt]
  | succ m =>
    have h1 : ((m + 1 : Nat) : Int) - 1 = ((m : Nat) : Int) := by push_cast; ring
    rw [h1, ← Int.ofNat_fdiv]
    have h2 : ((m / k : Nat) : Int) + 1 = ((m / k + 1 : Nat) : Int) := by push_cast; ring
    rw [h2, Int.toNat_natCast]
    have h3 : m + 1 + k - 1 = m + k := by omega
    rw [h3, Nat.add_div_right m hk]

/-- Concatenating the first `j` slices of the chunking loop yields the first
`j * k` rows. -/
theorem insert_batches_join_aux {α : Type} (rows : List α) (k : Nat) (j : Nat) :
    ((List.range j).map (fun index =>
      (rows.drop (index * k)).take
        (min ((index + 1) * k) rows.length - index * k))).flatten =
      rows.take (j * k) := by
  induction j with
  | zero => simp
  | succ j ih =>
    rw [List.range_succ, List.map_append, List.flatten_append, ih]
    have hmul : (j + 1) * k = j * k + k := by ring
    have hbatch : (rows.drop (j * k)).take (min ((j + 1) * k) rows.length - j * k) =
        (rows.drop (j * k)).take k := by
      rw [List.take_eq_take]
      simp only [List.length_drop]
      omega
    simp only [List.map_cons, List.map_nil, List.flatten_cons, List.flatten_nil,
      List.append_nil, hbatch]
    rw [hmul, List.take_add]

/-- Claim C5: with no chunk size `to_sql` performs a single insert execution
carrying all rows; with `chunk_size = k ≥ 1` it performs exactly `⌈n / k⌉`
insert executions, the `i`-th carrying `min k (n - i * k)` consecutive rows
(so each full batch has `k` rows and the last the remainder), and the batches
concatenated in order are exactly the original row sequence. -/
theorem to_sql_insert_chunking {α : Type} (rows : List α) (k : Nat) (hk : 1 ≤ k) :
    insert_batches rows none = [rows] ∧
    (insert_batches rows (some k)).length = (rows.length + k - 1) / k ∧
    (insert_batches rows (some k)).flatten = rows ∧
    ∀ (i : Nat) (h : i < (insert_batches rows (some k)).length),
      ((insert_batches rows (some k)).get ⟨i, h⟩).length =
        min k (rows.length - i * k) := by
  refine ⟨rfl, ?_, ?_, ?_⟩
  · simp [insert_batches, insert_batches_count rows.length k hk]
  · show ((List.range _).map _).flatten = rows
    rw [insert_batches_join_aux rows k]
    apply List.take_of_length_le
    rw [insert_batches_count rows.length k hk]
    have h1 := Nat.div_add_mod' (rows.length + k - 1) k
    have h2 : (rows.length + k - 1) % k < k := Nat.mod_lt _ (by omega)
    set A := (rows.length + k - 1) / k * k with hA
    omega
  · intro i h
    simp only [insert_batches, List.get_eq_getElem, List.getElem_map, List.getElem_range,
      List.length_take, List.length_drop]
    have hmul : (i + 1) * k = i * k + k := by ring
    rw [hmul]
    omega

/-- Witness for `to_sql_insert_chunking`: five rows with chunk size 2 give
batches `[0,1]`, `[2,3]`, `[4]`. -/
theorem to_sql_insert_chunking_witness :
    1 ≤ 2 ∧
      (insert_batches ([0, 1, 2, 3, 4] : List Nat) none = [[0, 1, 2, 3, 4]] ∧
        (insert_batches ([0, 1, 2, 3, 4] : List Nat) (some 2)).length =
          (([0, 1, 2, 3, 4] : List Nat).length + 2 - 1) / 2 ∧
        (insert_batches ([0, 1, 2, 3, 4] : List Nat) (some 2)).flatten =
          [0, 1, 2, 3, 4] ∧
        ∀ (i : Nat) (h : i < (insert_batches ([0, 1, 2, 3, 4] : List Nat) (some 2)).length),
          ((insert_batches ([0, 1, 2, 3, 4] : List Nat) (some 2)).get ⟨i, h⟩).length =
            min 2 (([0, 1, 2, 3, 4] : List Nat).length - i * 2)) :=
  ⟨by decide, to_sql_insert_chunking [0, 1, 2, 3, 4] 2 (by decide)⟩

set_option maxHeartbeats 1000000 in
/-- Claim C6: with constraints enabled, synthesis gives every column except
DateTime columns the explicit constraint `nullable = HasNulls(column)` — so a
column with no nulls becomes NOT NULL — while DateTime columns get no
explicit nullable keyword at all (`none`), leaving them nullable by the
SQLAlchemy default, whatever the data says. -/
theorem nullable_iff_has_nulls (dialect : Option String)
    (min_col_len col_len_multiplier : ℚ) (c : AgateColumn) :
    (make_sql_table_column (updateSqlTypeMap dialect) dialect true
        min_col_len col_len_multiplier c).map SqlColumnDef.nullable =
      Except.ok (if c.kind = TabularKind.datetime then none else some c.hasNulls) := by
  obtain ⟨nm, kind, mL, mP, hN⟩ := c
  cases kind <;>
    (simp only [make_sql_table_column, make_sql_column, updateSqlTypeMap, lookupTypeMap,
      Except.map]
     split_ifs <;> simp_all)

set_option maxHeartbeats 1000000 in
/-- Claim C4: with constraints enabled, a Text column on the two
length-limited dialects gets `length = MaxLength × col_len_multiplier`; if
the scaled length exceeds the dialect's budget (21844 for `mysql`, 10666 for
`ingres`) the column's type is the unbounded `TEXT` with no length keyword,
otherwise it is `VARCHAR` with length `max (scaled length) min_col_len`. -/
theorem text_length_limited_dialects (min_col_len col_len_multiplier : ℚ)
    (c : AgateColumn) (h : c.kind = TabularKind.text) :
    ((make_sql_table_column (updateSqlTypeMap (some "mysql")) (some "mysql") true
        min_col_len col_len_multiplier c).map (fun d => (d.colType, d.length)) =
      Except.ok (if c.maxLength * col_len_multiplier > 21844 then
          (SqlType.TEXT, (none : Option ℚ))
        else (SqlType.VARCHAR, some (max (c.maxLength * col_len_multiplier) min_col_len)))) ∧
    ((make_sql_table_column (updateSqlTypeMap (some "ingres")) (some "ingres") true
        min_col_len col_len_multiplier c).map (fun d => (d.colType, d.length)) =
      Except.ok (if c.maxLength * col_len_multiplier > 10666 then
          (SqlType.TEXT, (none : Option ℚ))
        else (SqlType.VARCHAR, some (max (c.maxLength * col_len_multiplier) min_col_len)))) := by
  obtain ⟨nm, kind, mL, mP, hN⟩ := c
  simp only at h
  subst h
  constructor <;>
  · simp only [make_sql_table_column, make_sql_column, updateSqlTypeMap, lookupTypeMap,
      Except.map]
    split_ifs <;> simp_all <;>
      rcases le_or_lt min_col_len (mL * col_len_multiplier) with h2 | h2 <;>
        simp_all [max_eq_left, max_eq_right, le_of_lt]

/-- Witness for `text_length_limited_dialects`: a Text column of maximum
observed length 10 with multiplier 1 and minimum length 1. -/
theorem text_length_limited_dialects_witness :
    (⟨"c", TabularKind.text, 10, 0, false⟩ : AgateColumn).kind = TabularKind.text ∧
      (((make_sql_table_column (updateSqlTypeMap (some "mysql")) (some "mysql") true
          1 1 ⟨"c", TabularKind.text, 10, 0, false⟩).map (fun d => (d.colType, d.length)) =
        Except.ok (if (10 : ℚ) * 1 > 21844 then (SqlType.TEXT, (none : Option ℚ))
          else (SqlType.VARCHAR, some (max ((10 : ℚ) * 1) 1)))) ∧
      ((make_sql_table_column (updateSqlTypeMap (some "ingres")) (some "ingres") true
          1 1 ⟨"c", TabularKind.text, 10, 0, false⟩).map (fun d => (d.colType, d.length)) =
        Except.ok (if (10 : ℚ) * 1 > 10666 then (SqlType.TEXT, (none : Option ℚ))
          else (SqlType.VARCHAR, some (max ((10 : ℚ) * 1) 1))))) :=
  ⟨rfl, text_length_limited_dialects 1 1 ⟨"c", TabularKind.text, 10, 0, false⟩ rfl⟩

/-- Claim C2, counterexample.  The claim says every call that opens its own
engine releases connection and engine on every exit path, including when
introspection, table creation, row insertion or the read raises.  In the
source the `try/finally` wraps only the final expression: a `from_sql` via
connection string whose table reflection raises leaves the engine undisposed;
a `to_sql` via connection string whose `create` raises leaves it undisposed;
and a `from_sql` with no connection argument never disposes the engine at all
(the resolver discarded the handle), even on success. -/
theorem owned_engine_leak_counterexample :
    (from_sql_run (ConnInput.connString "postgresql://h/db")
        (some FromSqlStep.introspect) []).engineDisposed = false ∧
    (to_sql_run (ConnInput.connString "postgresql://h/db") (some "postgresql")
        (some ToSqlStep.createStep) initSqlTypeMap [] "t" false true true none
        true [] 1 1).2.engineDisposed = false ∧
    (from_sql_run ConnInput.absent none []).engineDisposed = false := by
  decide

/-- Claim C2, amended: connection close and engine disposal happen exactly
when the call reaches its final `try` block with an owned engine.  For
`from_sql` that means a connection-string call whose reflection, inference
and read all succeeded (the cleanup then runs even if the final dataset
construction fails); for `to_sql` it means a connection-string call that
succeeded outright, since its `try` wraps only the `return`.  Failures in the
earlier steps leak the owned engine, and calls that opened an engine from an
absent argument never dispose it (the resolver returns no owned engine). -/
theorem owned_engine_release_characterization :
    (∀ (input : ConnInput) (failAt : Option FromSqlStep) (cols : List NativeSqlType),
      ((from_sql_run input failAt cols).engineDisposed =
        ((get_engine_and_connection input).ownedEngine &&
          (!(failAt == some FromSqlStep.introspect) &&
            ((cols.mapM infer_column_type).isOk &&
              !(failAt == some FromSqlStep.execute))))) ∧
      (from_sql_run input failAt cols).connectionClosed =
        (from_sql_run input failAt cols).engineDisposed) ∧
    (∀ (input : ConnInput) (dialect : Option String) (failAt : Option ToSqlStep)
        (st : SqlTypeMapState) (cols : List AgateColumn) (tn : String)
        (ov cr ins : Bool) (sch : Option String) (con : Bool) (uniq : List String)
        (mcl clm : ℚ),
      ((to_sql_run input dialect failAt st cols tn ov cr ins sch con uniq
          mcl clm).2.engineDisposed =
        ((to_sql_run input dialect failAt st cols tn ov cr ins sch con uniq
          mcl clm).2.ok && (get_engine_and_connection input).ownedEngine)) ∧
      (to_sql_run input dialect failAt st cols tn ov cr ins sch con uniq
          mcl clm).2.connectionClosed =
        (to_sql_run input dialect failAt st cols tn ov cr ins sch con uniq
          mcl clm).2.engineDisposed) := by
  constructor
  · intro input failAt cols
    by_cases h1 : failAt = some FromSqlStep.introspect <;>
      by_cases h2 : failAt = some FromSqlStep.execute <;>
        by_cases h3 : failAt = some FromSqlStep.buildResult <;>
          cases h : cols.mapM infer_column_type <;>
            simp_all [from_sql_run, Except.isOk, Except.toBool]
  · intro input dialect failAt st cols tn ov cr ins sch con uniq mcl clm
    unfold to_sql_run
    cases h : (make_sql_table st cols tn dialect sch con uniq mcl clm).2 <;>
      simp only [h] <;> (try split_ifs) <;> simp_all

/-- Claim C9: an operation invoked with an externally supplied live
connection never closes that connection and disposes no engine, on every
path — success, injected failure at any step, or inference error — because
the resolver returns no owned engine for an existing connection and the
cleanup is guarded by `if engine is not None`.  The caller can therefore run
a subsequent operation on the same connection. -/
theorem external_connection_never_closed :
    (∀ (failAt : Option FromSqlStep) (cols : List NativeSqlType),
      (from_sql_run ConnInput.conn failAt cols).connectionClosed = false ∧
      (from_sql_run ConnInput.conn failAt cols).engineDisposed = false) ∧
    (∀ (dialect : Option String) (failAt : Option ToSqlStep) (st : SqlTypeMapState)
        (cols : List AgateColumn) (tn : String) (ov cr ins : Bool)
        (sch : Option String) (con : Bool) (uniq : List String) (mcl clm : ℚ),
      (to_sql_run ConnInput.conn dialect failAt st cols tn ov cr ins sch con uniq
          mcl clm).2.connectionClosed = false ∧
      (to_sql_run ConnInput.conn dialect failAt st cols tn ov cr ins sch con uniq
          mcl clm).2.engineDisposed = false) := by
  constructor
  · intro failAt cols
    by_cases h1 : failAt = some FromSqlStep.introspect <;>
      by_cases h2 : failAt = some FromSqlStep.execute <;>
        by_cases h3 : failAt = some FromSqlStep.buildResult <;>
          cases h : cols.mapM infer_column_type <;>
            simp_all [from_sql_run, get_engine_and_connection]
  · intro dialect failAt st cols tn ov cr ins sch con uniq mcl clm
    unfold to_sql_run
    cases h : (make_sql_table st cols tn dialect sch con uniq mcl clm).2 <;>
      simp only [h] <;> (try split_ifs) <;> simp_all [get_engine_and_connection]

/-- `sql_query`'s loop leaves its accumulator untouched when every statement
piece is empty (`if q:` skips them all). -/
theorem sql_query_foldl_all_empty {ρ : Type} (execStmt : String → ρ)
    (l : List String) (acc : List String × Option ρ)
    (h : l.all (fun q => q == "") = true) :
    l.foldl (fun acc q => if q ≠ "" then (acc.1 ++ [q], some (execStmt q)) else acc)
      acc = acc := by
  induction l generalizing acc with
  | nil => rfl
  | cons x xs ih =>
    simp only [List.all_cons, Bool.and_eq_true, beq_iff_eq] at h
    obtain ⟨hx, hxs⟩ := h
    simp only [List.foldl_cons, hx]
    simp only [ne_eq, not_true_eq_false, if_false, ite_false]
    exact ih acc hxs

/-- Claim C10: when the query text splits into no non-empty statement (empty
string, or only `;` separators), `sql_query` executes no statement and the
call fails — `rows` stays `None` and the final dataset construction errors —
even though the input dataset was already materialized into the ephemeral
database before the loop. -/
theorem sql_query_no_statement_errors {ρ : Type} (execStmt : String → ρ)
    (query : String)
    (h : (pySplit ';' query).all (fun q => q == "") = true) :
    sql_query_run execStmt query =
      ⟨true, [], Except.error QueryError.lastResultNone⟩ := by
  simp only [sql_query_run]
  rw [sql_query_foldl_all_empty execStmt (pySplit ';' query) _ h]

/-- Witness for `sql_query_no_statement_errors` at the query text `";;"`. -/
theorem sql_query_no_statement_errors_witness :
    (pySplit ';' ";;").all (fun q => q == "") = true ∧
      sql_query_run (fun s => s.length) ";;" =
        ⟨true, [], Except.error QueryError.lastResultNone⟩ :=
  ⟨by decide, sql_query_no_statement_errors (fun s => s.length) ";;" (by decide)⟩

end AgateSql
